import Mathlib

/-!
Shallow embedding of the MCP demo server (greeting, calculator, get_time,
generate_image tools; the server://info resource; the code_review prompt).

Modelling conventions:
- A tool or resource result is a list of content blocks; a prompt result is a
  list of role-tagged messages.
- Handlers that can throw are modelled as functions into `Except String`,
  where the error value is the thrown message from the source.
- JavaScript numbers are modelled as exact rationals (`Rat`); the
  number-to-string rendering agrees with JavaScript on integers, which is all
  the claims exercise concretely.
- Ambient effects (current time, environment variables, locale rendering via
  ICU, the external inference call, Buffer base64 encoding) are passed in
  explicitly, either as a `World` record at the dispatch layer or as function
  parameters, since they belong to external collaborators of the repository.
-/

/-- A content block as returned by tool and resource handlers: either a text
block or a base64 image block with a MIME type. -/
inductive ContentBlock where
  | text (text : String)
  | image (data : String) (mimeType : String)
deriving DecidableEq

/-- A role-tagged prompt message as returned by prompt handlers. -/
structure PromptMessage where
  role : String
  contentType : String
  text : String
deriving DecidableEq

/-! ## Greeting tool -/

/-- The greeting handler body: the switch over the language value from
src, including its default fallback branch that repeats the Korean
greeting for an unmatched value. -/
def greetingHandler (name : String) (language : String) : List ContentBlock :=
  let greeting :=
    if language = "ko" then "안녕하세요, " ++ name ++ "님! 😊"
    else if language = "en" then "Hello, " ++ name ++ "! 👋"
    else if language = "ja" then "こんにちは、" ++ name ++ "さん！ 😊"
    else "안녕하세요, " ++ name ++ "님! 😊"
  [ContentBlock.text greeting]

/-- The zod schema for the greeting language argument: an optional enum over
ko, en, ja with default ko. Returns the validated value handed to the
handler, or `none` when validation rejects the argument. -/
def greetingSchemaLanguage : Option String → Option String
  | none => some "ko"
  | some l => if l = "ko" ∨ l = "en" ∨ l = "ja" then some l else none

/-- The greeting tool as dispatched: schema validation followed by the
handler. `none` models a schema validation rejection by the SDK. -/
def greetingTool (name : String) (language : Option String) : Option (List ContentBlock) :=
  (greetingSchemaLanguage language).map (greetingHandler name)

/-- Variant of the greeting handler with the default fallback branch removed,
following the specification text that calls that branch dead code. Used only
to compare against `greetingHandler` and state that the fallback is
unreachable under the schema. -/
def greetingHandlerNoFallback (name : String) (language : String) :
    Option (List ContentBlock) :=
  if language = "ko" then some [ContentBlock.text ("안녕하세요, " ++ name ++ "님! 😊")]
  else if language = "en" then some [ContentBlock.text ("Hello, " ++ name ++ "! 👋")]
  else if language = "ja" then some [ContentBlock.text ("こんにちは、" ++ name ++ "さん！ 😊")]
  else none

/-! ## Calculator tool -/

/-- The calculator operation enum from the zod schema. -/
inductive Operation where
  | add
  | subtract
  | multiply
  | divide
deriving DecidableEq

/-- Rendering of a number into the output text. JavaScript renders numbers in
decimal; this rendering agrees with it on all integer values (the only values
the specification pins down concretely) and renders non-integers as exact
fractions. -/
def numToString (q : Rat) : String :=
  if q.den = 1 then toString q.num else toString q.num ++ "/" ++ toString q.den

/-- The error message thrown by the calculator on division by zero; it is the
failure the specification calls DomainError. -/
def divideByZeroMessage : String := "0으로 나눌 수 없습니다"

/-- The calculator handler: the switch computing result and symbol, then the
single formatted text block, mirroring src. -/
def calculator (operation : Operation) (a b : Rat) : Except String (List ContentBlock) :=
  let step : Except String (Rat × String) :=
    match operation with
    | Operation.add => Except.ok (a + b, "+")
    | Operation.subtract => Except.ok (a - b, "-")
    | Operation.multiply => Except.ok (a * b, "×")
    | Operation.divide =>
        if b = 0 then Except.error divideByZeroMessage
        else Except.ok (a / b, "÷")
  match step with
  | Except.error e => Except.error e
  | Except.ok (result, operationSymbol) =>
      Except.ok [ContentBlock.text
        (numToString a ++ " " ++ operationSymbol ++ " " ++ numToString b ++ " = "
          ++ numToString result)]

/-- The printed symbol of each operation, for stating the output format. -/
def operationSymbol : Operation → String
  | Operation.add => "+"
  | Operation.subtract => "-"
  | Operation.multiply => "×"
  | Operation.divide => "÷"

/-- The textbook arithmetic result of each operation, for stating the output
format. -/
def applyOperation : Operation → Rat → Rat → Rat
  | Operation.add, a, b => a + b
  | Operation.subtract, a, b => a - b
  | Operation.multiply, a, b => a * b
  | Operation.divide, a, b => a / b

/-! ## Time tool

The `get_time` handler renders the current instant. The instant is modelled as
the signed count of milliseconds since the Unix epoch (the value underlying a
JavaScript `Date`). The three locale-dependent formats delegate to ICU via
`toLocaleDateString` / `toLocaleTimeString` / `toLocaleString`, which are
external collaborators and are therefore passed in as function parameters. The
`iso` format is `Date.prototype.toISOString`, which is fully specified by
ECMA-262 and is embedded here: fields are extracted with floor division and
floor modulus from the epoch milliseconds, the calendar date comes from the
standard days-to-civil-date conversion on the proleptic Gregorian calendar,
and the output is zero-padded `YYYY-MM-DDTHH:mm:ss.sssZ`, with the expanded
sign + six-digit year form when the year lies outside 0..9999. An instant
farther than 8.64e15 milliseconds from the epoch is not a valid `Date` and
makes `toISOString` throw a RangeError, modelled as the error case. -/

/-- The time format enum from the zod schema. -/
inductive TimeFormat where
  | full
  | date
  | time
  | iso
deriving DecidableEq

/-- Zero-padded fixed-width decimal rendering of a natural number, as the list
of its `w` low-order decimal digit characters, most significant first. -/
def padDigitsList : Nat → Nat → List Char
  | 0, _ => []
  | w + 1, n => padDigitsList w (n / 10) ++ [Char.ofNat (48 + n % 10)]

/-- Days-since-epoch to proleptic Gregorian (year, month, day). -/
def civilFromDays (z0 : Int) : Int × Int × Int :=
  let z := z0 + 719468
  let era := z / 146097
  let doe := z % 146097
  let yoe := (doe - doe / 1460 + doe / 36524 - doe / 146096) / 365
  let y := yoe + era * 400
  let doy := doe - (365 * yoe + yoe / 4 - yoe / 100)
  let mp := (5 * doy + 2) / 153
  let d := doy - (153 * mp + 2) / 5 + 1
  let m := mp + (if mp < 10 then 3 else -9)
  (y + (if m ≤ 2 then 1 else 0), m, d)

/-- The character list of the ISO-8601 rendering of an instant, per
`Date.prototype.toISOString`. -/
def isoChars (t : Int) : List Char :=
  let days := t / 86400000
  let ymd := civilFromDays days
  let year := ymd.1
  let month := ymd.2.1
  let day := ymd.2.2
  let hour := (t / 3600000 % 24).toNat
  let minute := (t / 60000 % 60).toNat
  let second := (t / 1000 % 60).toNat
  let milli := (t % 1000).toNat
  let yearChars :=
    if 0 ≤ year ∧ year ≤ 9999 then padDigitsList 4 year.toNat
    else if year < 0 then '-' :: padDigitsList 6 year.natAbs
    else '+' :: padDigitsList 6 year.natAbs
  yearChars ++ '-' :: (padDigitsList 2 month.toNat ++ '-' :: (padDigitsList 2 day.toNat
    ++ 'T' :: (padDigitsList 2 hour ++ ':' :: (padDigitsList 2 minute
    ++ ':' :: (padDigitsList 2 second ++ '.' :: (padDigitsList 3 milli ++ ['Z']))))))

/-- ECMA-262 `Date.prototype.toISOString`: renders valid instants, throws a
RangeError (the error case) outside the valid `Date` range. -/
def toISOString (t : Int) : Except String String :=
  if t.natAbs ≤ 8640000000000000 then Except.ok (String.mk (isoChars t))
  else Except.error "Invalid time value"

/-- The `timeString` computed by the get_time handler switch: the three locale
formats call the ICU renderers with the supplied time zone, the iso format
calls `toISOString` on the instant alone. -/
def get_time_timeString (localeDate localeTime localeFull : Option String → Int → String)
    (timeZone : Option String) (format : TimeFormat) (now : Int) : Except String String :=
  match format with
  | TimeFormat.date => Except.ok (localeDate timeZone now)
  | TimeFormat.time => Except.ok (localeTime timeZone now)
  | TimeFormat.iso => toISOString now
  | TimeFormat.full => Except.ok (localeFull timeZone now)

/-- The get_time handler: the time string plus the resolved-zone suffix,
wrapped in one text block. -/
def get_time (localeDate localeTime localeFull : Option String → Int → String)
    (timeZone : Option String) (format : TimeFormat) (now : Int) :
    Except String (List ContentBlock) :=
  match get_time_timeString localeDate localeTime localeFull timeZone format now with
  | Except.error e => Except.error e
  | Except.ok timeString =>
      let timeZoneInfo := match timeZone with
        | some tz => " (" ++ tz ++ ")"
        | none => " (시스템 시간대)"
      Except.ok [ContentBlock.text ("현재 시간" ++ timeZoneInfo ++ ": " ++ timeString)]

/-- Decimal digit test on a character. -/
def isDigit (c : Char) : Bool := decide (48 ≤ c.toNat) && decide (c.toNat ≤ 57)

/-- Numeric value of a decimal digit character. -/
def digitVal (c : Char) : Nat := c.toNat - 48

/-- Numeric value of a two-digit group. -/
def twoDigitVal (c1 c2 : Char) : Nat := 10 * digitVal c1 + digitVal c2

/-- Validity check for everything after the year in a UTC ISO-8601 timestamp:
the exact separator layout of `-MM-DDTHH:mm:ss.sssZ`, decimal digits in every
component, and the component ranges month 1..12, day 1..31, hour 0..23,
minute 0..59, second 0..59. -/
def validISOTail : List Char → Bool
  | ['-', m1, m2, '-', d1, d2, 'T', h1, h2, ':', i1, i2, ':', s1, s2, '.', f1, f2, f3, 'Z'] =>
      ([m1, m2, d1, d2, h1, h2, i1, i2, s1, s2, f1, f2, f3].all isDigit)
      && decide (1 ≤ twoDigitVal m1 m2) && decide (twoDigitVal m1 m2 ≤ 12)
      && decide (1 ≤ twoDigitVal d1 d2) && decide (twoDigitVal d1 d2 ≤ 31)
      && decide (twoDigitVal h1 h2 ≤ 23)
      && decide (twoDigitVal i1 i2 ≤ 59)
      && decide (twoDigitVal s1 s2 ≤ 59)
  | _ => false

/-- Helper for the timestamp validity check: require exactly `k` decimal
digit characters, then a valid `-MM-DDTHH:mm:ss.sssZ` tail. -/
def validDigitsThen : Nat → List Char → Bool
  | 0, rest => validISOTail rest
  | k + 1, c :: rest => isDigit c && validDigitsThen k rest
  | _ + 1, [] => false

/-- Validity check for a UTC ISO-8601 timestamp string: a four-digit year or a
signed six-digit expanded year, followed by a valid `-MM-DDTHH:mm:ss.sssZ`
tail. -/
def isValidISO8601UTC (s : String) : Bool :=
  match s.data with
  | [] => false
  | c :: cs =>
      if c = '+' ∨ c = '-' then validDigitsThen 6 cs
      else validDigitsThen 4 (c :: cs)

/-! ## Registration and the server info resource -/

/-- Capability category of a registration. -/
inductive Category where
  | tool
  | resource
  | prompt
deriving DecidableEq

/-- The registration calls executed at startup by the variant of the server
that includes the generate_image tool, in source order. -/
def registrationSequence_part000 : List (Category × String) :=
  [(Category.tool, "greeting"), (Category.tool, "calculator"), (Category.tool, "get_time"),
   (Category.resource, "server://info"), (Category.tool, "generate_image"),
   (Category.prompt, "code_review")]

/-- The registration calls executed at startup by src/index.ts, the variant
without the generate_image tool, in source order. -/
def registrationSequence_index : List (Category × String) :=
  [(Category.tool, "greeting"), (Category.tool, "calculator"), (Category.tool, "get_time"),
   (Category.resource, "server://info"), (Category.prompt, "code_review")]

/-- The names registered in one category, in registration order. -/
def registeredNames (cat : Category) (regs : List (Category × String)) : List String :=
  (regs.filter (fun r => decide (r.1 = cat))).map Prod.snd

/-- One capability entry of the serverInfo JSON value: name, description and
parameter summary. -/
structure CapabilityInfo where
  name : String
  description : String
  parameters : List (String × String)
deriving DecidableEq

/-- The tools array of serverInfo.capabilities as written literally in the
server://info handler. -/
def serverInfoTools : List CapabilityInfo :=
  [{ name := "greeting",
     description := "다국어 인사 기능 (한국어, 영어, 일본어)",
     parameters := [("name", "string - 인사할 사람의 이름"),
                    ("language", "enum - 인사 언어 (ko, en, ja)")] },
   { name := "calculator",
     description := "사칙연산 계산기",
     parameters := [("operation", "enum - 연산 종류 (add, subtract, multiply, divide)"),
                    ("a", "number - 첫 번째 숫자"),
                    ("b", "number - 두 번째 숫자")] },
   { name := "get_time",
     description := "시간 조회 기능",
     parameters := [("timeZone", "string - 시간대 (선택)"),
                    ("format", "enum - 시간 형식 (full, date, time, iso)")] }]

/-- The resources array of serverInfo.capabilities as written literally in the
server://info handler. -/
def serverInfoResources : List CapabilityInfo :=
  [{ name := "server://info", description := "서버 정보 조회", parameters := [] }]

/-! ## Image generation tool -/

/-- The message thrown when the HF_TOKEN environment variable is unset; it is
the missing-credential failure the specification calls ConfigError. -/
def configErrorMessage : String := "HF_TOKEN 환경변수가 설정되지 않았습니다"

/-- The wrapping applied by the generate_image catch block to the message of
any error raised inside the handler body; the wrapped failure is what the
specification calls GenerationError. -/
def generationErrorWrap (e : String) : String :=
  "이미지 생성 중 오류가 발생했습니다: " ++ e

/-- The generate_image handler. `hfToken` is the HF_TOKEN environment
variable (`none` when unset; the source truthiness test also rejects the
empty string). `textToImage` is the external inference call, taking the token
and the prompt and returning either the image bytes or a failure message.
`base64` is the Buffer base64 encoding. The outer match models the
try/catch that rewraps every inner failure message. -/
def generate_image (hfToken : Option String)
    (textToImage : String → String → Except String (List Nat))
    (base64 : List Nat → String) (prompt : String) : Except String (List ContentBlock) :=
  let attempt : Except String (List ContentBlock) :=
    match hfToken with
    | none => Except.error configErrorMessage
    | some token =>
        if token = "" then Except.error configErrorMessage
        else
          match textToImage token prompt with
          | Except.error e => Except.error e
          | Except.ok blob => Except.ok [ContentBlock.image (base64 blob) "image/png"]
  match attempt with
  | Except.ok content => Except.ok content
  | Except.error e => Except.error (generationErrorWrap e)

/-! ## Code review prompt -/

/-- The review focus enum from the zod schema. -/
inductive Focus where
  | quality
  | performance
  | security
  | style
  | all
deriving DecidableEq

/-- The string value of a focus, as it appears in the rendered prompt. -/
def Focus.render : Focus → String
  | Focus.quality => "quality"
  | Focus.performance => "performance"
  | Focus.security => "security"
  | Focus.style => "style"
  | Focus.all => "all"

/-- The fixed six-item review rubric embedded in every rendered code_review
prompt. -/
def reviewRubric : String :=
  "리뷰 항목:\n1. **코드 품질**: 가독성, 구조, 모듈화\n2. **성능**: 효율성, 최적화 가능한 부분\n3. **보안**: 잠재적 보안 취약점\n4. **스타일**: 코딩 컨벤션, 네이밍\n5. **개선 제안**: 구체적인 개선 방안\n6. **모범 사례**: 해당 언어/프레임워크의 모범 사례"

/-- The code_review prompt handler: the focus argument defaults to all at
destructuring, and the handler renders one user-role text message embedding
the code in a fenced block followed by the rubric. -/
def code_review (code : String) (language : Option String) (focus : Option Focus) :
    List PromptMessage :=
  let focusVal := focus.getD Focus.all
  let languageInfo := match language with
    | some l => " (" ++ l ++ ")"
    | none => ""
  let focusInfo := if focusVal ≠ Focus.all then " - " ++ focusVal.render ++ " 중심" else ""
  let languageTag := language.getD ""
  let reviewPrompt :=
    "다음" ++ languageInfo ++ " 코드를 분석하고 상세한 리뷰를 제공해주세요" ++ focusInfo
    ++ ":\n\n```" ++ languageTag ++ "\n" ++ code ++ "\n```\n\n" ++ reviewRubric
    ++ "\n\n각 항목별로 구체적인 예시와 함께 설명해주세요."
  [{ role := "user", contentType := "text", text := reviewPrompt }]

/-! ## Dispatch layer -/

/-- Everything ambient a handler invocation could observe: the clock, the
environment, the ICU locale renderers, the external inference endpoint and
the base64 encoder. Registration is write-once at startup and no handler
keeps cross-call state, so the world carries no mutable component. -/
structure World where
  now : Int
  hfToken : Option String
  localeDate : Option String → Int → String
  localeTime : Option String → Int → String
  localeFull : Option String → Int → String
  textToImage : String → String → Except String (List Nat)
  base64 : List Nat → String

/-- A validated-or-raw tool invocation. Arguments whose schema validation the
claims reason about stay raw (greeting language); the rest arrive already
typed by their schema. -/
inductive ToolCall where
  | greeting (name : String) (language : Option String)
  | calculator (operation : Operation) (a b : Rat)
  | get_time (timeZone : Option String) (format : Option TimeFormat)
  | generate_image (prompt : String)

/-- Outcome of dispatch when it does not produce content: a schema validation
rejection by the SDK, or a handler-thrown error converted into a protocol
error response carrying the thrown message. -/
inductive DispatchError where
  | validation
  | handler (message : String)
deriving DecidableEq

/-- The dispatch of one tool call against the registry: validate, run the
handler with the ambient world, convert a thrown failure into an error
response. -/
def dispatchTool (w : World) : ToolCall → Except DispatchError (List ContentBlock)
  | ToolCall.greeting name language =>
      match greetingSchemaLanguage language with
      | some l => Except.ok (greetingHandler name l)
      | none => Except.error DispatchError.validation
  | ToolCall.calculator operation a b =>
      match calculator operation a b with
      | Except.ok c => Except.ok c
      | Except.error m => Except.error (DispatchError.handler m)
  | ToolCall.get_time timeZone format =>
      match get_time w.localeDate w.localeTime w.localeFull timeZone
          (format.getD TimeFormat.full) w.now with
      | Except.ok c => Except.ok c
      | Except.error m => Except.error (DispatchError.handler m)
  | ToolCall.generate_image prompt =>
      match generate_image w.hfToken w.textToImage w.base64 prompt with
      | Except.ok c => Except.ok c
      | Except.error m => Except.error (DispatchError.handler m)

/-- The dispatch of the code_review prompt: the handler reads nothing from the
ambient world. -/
def dispatchPrompt (w : World) (code : String) (language : Option String)
    (focus : Option Focus) : List PromptMessage :=
  code_review code language focus

/-! ## Theorems -/

/-- C1: the server://info handler of the variant that registers
generate_image enumerates only greeting, calculator and get_time in its
capabilities listing, so the registered tool generate_image is missing from
the listing and the listing does not enumerate exactly the registered names;
the listing does match the registrations of the src/index.ts variant, which
never registers generate_image. -/
theorem serverInfo_capabilities_mismatch :
    registeredNames Category.tool registrationSequence_part000
      = ["greeting", "calculator", "get_time", "generate_image"] ∧
    serverInfoTools.map CapabilityInfo.name = ["greeting", "calculator", "get_time"] ∧
    "generate_image" ∈ registeredNames Category.tool registrationSequence_part000 ∧
    "generate_image" ∉ serverInfoTools.map CapabilityInfo.name ∧
    serverInfoResources.map CapabilityInfo.name
      = registeredNames Category.resource registrationSequence_part000 ∧
    serverInfoTools.map CapabilityInfo.name
      = registeredNames Category.tool registrationSequence_index := by
  decide

/-- C3: for every number a, dividing by zero makes the calculator fail with
the division-by-zero domain error and produce no success content. -/
theorem calculator_divide_zero_domainError (a : Rat) :
    calculator Operation.divide a 0 = Except.error divideByZeroMessage ∧
    ∀ content, calculator Operation.divide a 0 ≠ Except.ok content := by
  constructor
  · simp [calculator]
  · intro content h
    simp [calculator] at h

/-- Witness for C3 at a = 5. -/
theorem calculator_divide_zero_domainError_witness :
    calculator Operation.divide 5 0 = Except.error divideByZeroMessage ∧
    calculator Operation.divide 5 0 ≠ Except.ok [] :=
  ⟨(calculator_divide_zero_domainError 5).1, (calculator_divide_zero_domainError 5).2 []⟩

/-- C4: on every valid input that is not a division by zero the calculator
succeeds with exactly one text block of the documented format, where the
symbol is the operation's printed symbol and the result is the arithmetic
result of the operation. -/
theorem calculator_format (operation : Operation) (a b : Rat)
    (h : operation ≠ Operation.divide ∨ b ≠ 0) :
    calculator operation a b = Except.ok [ContentBlock.text
      (numToString a ++ " " ++ operationSymbol operation ++ " " ++ numToString b
        ++ " = " ++ numToString (applyOperation operation a b))] := by
  cases operation with
  | add => simp [calculator, operationSymbol, applyOperation]
  | subtract => simp [calculator, operationSymbol, applyOperation]
  | multiply => simp [calculator, operationSymbol, applyOperation]
  | divide =>
      have hb : b ≠ 0 := by
        rcases h with h | h
        · exact absurd rfl h
        · exact h
      simp [calculator, operationSymbol, applyOperation, hb]

/-- Witness for C4: the documented example multiply 6 7 renders 6 × 7 = 42. -/
theorem calculator_format_witness :
    calculator Operation.multiply 6 7 = Except.ok [ContentBlock.text "6 × 7 = 42"] := by
  have h := calculator_format Operation.multiply 6 7 (Or.inl (by decide))
  rw [h]
  have h2 : applyOperation Operation.multiply 6 7 = (42 : Rat) := by
    simp [applyOperation]
    norm_num
  rw [h2]
  exact congrArg Except.ok (by decide)

/-- C6: for each supported language the greeting handler returns one text
block following that language's fixed salutation template; every successful
greeting output contains the name verbatim; and omitting the language behaves
identically to language ko. -/
theorem greeting_language_templates (name : String) :
    greetingHandler name "ko" = [ContentBlock.text ("안녕하세요, " ++ name ++ "님! 😊")] ∧
    greetingHandler name "en" = [ContentBlock.text ("Hello, " ++ name ++ "! 👋")] ∧
    greetingHandler name "ja" = [ContentBlock.text ("こんにちは、" ++ name ++ "さん！ 😊")] ∧
    (∀ language t, greetingTool name language = some [ContentBlock.text t] →
      ∃ pre post, t.data = pre ++ name.data ++ post) ∧
    greetingTool name none = greetingTool name (some "ko") := by
  have hdata : ∀ s1 s2 : String, (s1 ++ name ++ s2).data
      = s1.data ++ name.data ++ s2.data := by
    intro s1 s2
    simp [String.data_append]
  refine ⟨by simp [greetingHandler], by simp [greetingHandler], by simp [greetingHandler],
    ?_, rfl⟩
  intro language t h
  have hname : ∀ l : String, greetingHandler name l = [ContentBlock.text t] →
      ∃ pre post, t.data = pre ++ name.data ++ post := by
    intro l hl
    simp only [greetingHandler, List.cons.injEq, ContentBlock.text.injEq, and_true] at hl
    split at hl
    · exact ⟨_, _, by rw [← hl, hdata]⟩
    · split at hl
      · exact ⟨_, _, by rw [← hl, hdata]⟩
      · split at hl
        · exact ⟨_, _, by rw [← hl, hdata]⟩
        · exact ⟨_, _, by rw [← hl, hdata]⟩
  cases language with
  | none =>
      have h2 : greetingHandler name "ko" = [ContentBlock.text t] := by
        have hko : greetingTool name none = some (greetingHandler name "ko") := rfl
        rw [hko] at h
        exact Option.some.inj h
      exact hname "ko" h2
  | some l =>
      simp only [greetingTool, greetingSchemaLanguage] at h
      by_cases hv : l = "ko" ∨ l = "en" ∨ l = "ja"
      · rw [if_pos hv] at h
        refine hname l (Option.some.inj ?_)
        exact h
      · rw [if_neg hv] at h
        simp at h

/-- Witness for C6: the documented example greeting Alice in English. -/
theorem greeting_language_templates_witness :
    greetingHandler "Alice" "en" = [ContentBlock.text "Hello, Alice! 👋"] := by
  have h := (greeting_language_templates "Alice").2.1
  rw [h]
  decide

/-- C9: the greeting handler is total, returning one text block for every
name and every raw language value; and under the schema, which only lets the
values ko, en, ja through (with ko as the default for an omitted language),
the default fallback branch is dead: the fallback-free variant of the handler
already succeeds with the same output on every schema-validated value. -/
theorem greeting_total_fallback_dead (name : String) (language : Option String) (raw : String) :
    (∃ t, greetingHandler name raw = [ContentBlock.text t]) ∧
    (∀ l, greetingSchemaLanguage language = some l →
      greetingHandlerNoFallback name l = some (greetingHandler name l)) := by
  constructor
  · exact ⟨_, rfl⟩
  · intro l hl
    cases language with
    | none =>
        simp only [greetingSchemaLanguage, Option.some.injEq] at hl
        subst hl
        simp [greetingHandlerNoFallback, greetingHandler]
    | some s =>
        simp only [greetingSchemaLanguage] at hl
        by_cases hv : s = "ko" ∨ s = "en" ∨ s = "ja"
        · rw [if_pos hv] at hl
          simp only [Option.some.injEq] at hl
          subst hl
          rcases hv with h | h | h <;> subst h <;>
            simp [greetingHandlerNoFallback, greetingHandler]
        · rw [if_neg hv] at hl
          cases hl

/-- Witness for C9 at name Alice, registered language ja, raw value fr. -/
theorem greeting_total_fallback_dead_witness :
    (∃ t, greetingHandler "Alice" "fr" = [ContentBlock.text t]) ∧
    greetingHandlerNoFallback "Alice" "ja" = some (greetingHandler "Alice" "ja") :=
  ⟨(greeting_total_fallback_dead "Alice" (some "ja") "fr").1,
    (greeting_total_fallback_dead "Alice" (some "ja") "fr").2 "ja" (by decide)⟩

/-- C10: the greeting and calculator tools and the code_review prompt are
deterministic: dispatching the same arguments in any two ambient worlds
(different clock, environment, locale tables, network behaviour) produces
identical results, and no handler carries cross-call state. -/
theorem handlers_deterministic (w1 w2 : World) :
    (∀ name language, dispatchTool w1 (ToolCall.greeting name language)
        = dispatchTool w2 (ToolCall.greeting name language)) ∧
    (∀ operation a b, dispatchTool w1 (ToolCall.calculator operation a b)
        = dispatchTool w2 (ToolCall.calculator operation a b)) ∧
    (∀ code language focus, dispatchPrompt w1 code language focus
        = dispatchPrompt w2 code language focus) :=
  ⟨fun _ _ => rfl, fun _ _ _ => rfl, fun _ _ _ => rfl⟩

/-- C2: when the HF_TOKEN credential is unset (or blank, which the source
truthiness test also treats as unset), generate_image fails with the
missing-credential failure — the fixed, descriptive config-error message,
rewrapped by the handler's own catch — and this outcome is the same for every
prompt and for every behaviour of the external endpoint. -/
theorem generate_image_config_error
    (textToImage : String → String → Except String (List Nat))
    (base64 : List Nat → String) (prompt prompt2 : String) (hfToken : Option String)
    (h : hfToken = none ∨ hfToken = some "") :
    generate_image hfToken textToImage base64 prompt
      = Except.error (generationErrorWrap configErrorMessage) ∧
    generate_image hfToken textToImage base64 prompt
      = generate_image hfToken textToImage base64 prompt2 := by
  rcases h with h | h <;> subst h <;> exact ⟨rfl, rfl⟩

/-- Witness for C2 with the token unset and an endpoint that would fail. -/
theorem generate_image_config_error_witness :
    generate_image none (fun _ _ => Except.error "boom") (fun _ => "") "a cat"
      = Except.error (generationErrorWrap configErrorMessage) :=
  (generate_image_config_error (fun _ _ => Except.error "boom") (fun _ => "")
    "a cat" "a dog" none (Or.inl rfl)).1

/-- C7: whenever the external image call fails, generate_image fails with the
single wrapped generation error carrying the underlying message, and at the
dispatch boundary this failure becomes an error response rather than a
process termination. -/
theorem generate_image_wraps_failure (w : World) (token e prompt : String)
    (htoken : w.hfToken = some token) (hne : token ≠ "")
    (hfail : w.textToImage token prompt = Except.error e) :
    generate_image w.hfToken w.textToImage w.base64 prompt
      = Except.error (generationErrorWrap e) ∧
    dispatchTool w (ToolCall.generate_image prompt)
      = Except.error (DispatchError.handler (generationErrorWrap e)) := by
  have h1 : generate_image w.hfToken w.textToImage w.base64 prompt
      = Except.error (generationErrorWrap e) := by
    rw [htoken]
    simp [generate_image, hne, hfail]
  refine ⟨h1, ?_⟩
  simp only [dispatchTool, h1]

/-- Witness for C7 in a world whose endpoint reports an unreachable network. -/
theorem generate_image_wraps_failure_witness :
    dispatchTool
      { now := 0, hfToken := some "tok",
        localeDate := fun _ _ => "", localeTime := fun _ _ => "", localeFull := fun _ _ => "",
        textToImage := fun _ _ => Except.error "network unreachable",
        base64 := fun _ => "" }
      (ToolCall.generate_image "a cat")
      = Except.error (DispatchError.handler (generationErrorWrap "network unreachable")) :=
  (generate_image_wraps_failure
    { now := 0, hfToken := some "tok",
      localeDate := fun _ _ => "", localeTime := fun _ _ => "", localeFull := fun _ _ => "",
      textToImage := fun _ _ => Except.error "network unreachable",
      base64 := fun _ => "" }
    "tok" "network unreachable" "a cat" rfl (by decide) rfl).2

/-- C8: for every code string, optional language and optional focus, the
code_review prompt renders exactly one user-role text message whose text
embeds the code verbatim inside the fenced code block and carries the fixed
six-item rubric; omitting the focus renders the same output as focus all. -/
theorem code_review_single_user_message (code : String) (language : Option String)
    (focus : Option Focus) :
    (∃ t, code_review code language focus
        = [{ role := "user", contentType := "text", text := t }] ∧
      (∃ pre post, t.data
          = pre ++ ("```" ++ language.getD "" ++ "\n" ++ code ++ "\n```").data ++ post) ∧
      (∃ pre post, t.data = pre ++ reviewRubric.data ++ post)) ∧
    code_review code language none = code_review code language (some Focus.all) := by
  refine ⟨⟨_, rfl, ?_, ?_⟩, rfl⟩
  · refine ⟨("다음" ++ (match language with
        | some l => " (" ++ l ++ ")"
        | none => "") ++ " 코드를 분석하고 상세한 리뷰를 제공해주세요" ++
        (if (focus.getD Focus.all) ≠ Focus.all
          then " - " ++ (focus.getD Focus.all).render ++ " 중심" else "") ++ ":\n\n").data,
      ("\n\n" ++ reviewRubric ++ "\n\n각 항목별로 구체적인 예시와 함께 설명해주세요.").data, ?_⟩
    simp [String.data_append, List.append_assoc]
  · refine ⟨("다음" ++ (match language with
        | some l => " (" ++ l ++ ")"
        | none => "") ++ " 코드를 분석하고 상세한 리뷰를 제공해주세요" ++
        (if (focus.getD Focus.all) ≠ Focus.all
          then " - " ++ (focus.getD Focus.all).render ++ " 중심" else "") ++ ":\n\n```"
        ++ language.getD "" ++ "\n" ++ code ++ "\n```\n\n").data,
      ("\n\n각 항목별로 구체적인 예시와 함께 설명해주세요.").data, ?_⟩
    simp [String.data_append, List.append_assoc]

/-- Witness for C8 at a concrete code snippet in typescript with security
focus. -/
theorem code_review_single_user_message_witness :
    (∃ t, code_review "let x = 1" (some "typescript") (some Focus.security)
        = [{ role := "user", contentType := "text", text := t }] ∧
      (∃ pre post, t.data
          = pre ++ ("```" ++ (some "typescript").getD "" ++ "\n" ++ "let x = 1"
            ++ "\n```").data ++ post) ∧
      (∃ pre post, t.data = pre ++ reviewRubric.data ++ post)) ∧
    code_review "let x = 1" (some "typescript") none
      = code_review "let x = 1" (some "typescript") (some Focus.all) :=
  code_review_single_user_message "let x = 1" (some "typescript") (some Focus.security)

/-- Bounds of the civil-date conversion: for every day count the computed
month lies in 1..12 and the computed day in 1..31. -/
theorem civilFromDays_month_day_bounds (z : Int) :
    1 ≤ (civilFromDays z).2.1 ∧ (civilFromDays z).2.1 ≤ 12 ∧
    1 ≤ (civilFromDays z).2.2 ∧ (civilFromDays z).2.2 ≤ 31 := by
  unfold civilFromDays
  dsimp only
  split <;> omega

/-- A decimal digit character built from a value below ten passes the digit
test. -/
theorem isDigit_ofNat_lt10 (k : Nat) (hk : k < 10) :
    isDigit (Char.ofNat (48 + k)) = true := by
  interval_cases k <;> decide

/-- Every character produced by the padded rendering passes the digit test. -/
theorem isDigit_mod10 (n : Nat) : isDigit (Char.ofNat (48 + n % 10)) = true :=
  isDigit_ofNat_lt10 (n % 10) (Nat.mod_lt _ (by decide))

/-- The numeric value of a rendered digit character. -/
theorem digitVal_ofNat_lt10 (k : Nat) (hk : k < 10) :
    digitVal (Char.ofNat (48 + k)) = k := by
  interval_cases k <;> decide

/-- A rendered digit character is neither a plus nor a minus sign. -/
theorem sign_ne_digit (k : Nat) (hk : k < 10) :
    ¬(Char.ofNat (48 + k) = '+' ∨ Char.ofNat (48 + k) = '-') := by
  interval_cases k <;> decide

/-- Two-width padded rendering, written out. -/
theorem padDigitsList_two_eq (n : Nat) :
    padDigitsList 2 n = [Char.ofNat (48 + n / 10 % 10), Char.ofNat (48 + n % 10)] := rfl

/-- Three-width padded rendering, written out. -/
theorem padDigitsList_three_eq (n : Nat) :
    padDigitsList 3 n = [Char.ofNat (48 + n / 10 / 10 % 10),
      Char.ofNat (48 + n / 10 % 10), Char.ofNat (48 + n % 10)] := rfl

/-- Four-width padded rendering, written out. -/
theorem padDigitsList_four_eq (n : Nat) :
    padDigitsList 4 n = [Char.ofNat (48 + n / 10 / 10 / 10 % 10),
      Char.ofNat (48 + n / 10 / 10 % 10), Char.ofNat (48 + n / 10 % 10),
      Char.ofNat (48 + n % 10)] := rfl

/-- Six-width padded rendering, written out. -/
theorem padDigitsList_six_eq (n : Nat) :
    padDigitsList 6 n = [Char.ofNat (48 + n / 10 / 10 / 10 / 10 / 10 % 10),
      Char.ofNat (48 + n / 10 / 10 / 10 / 10 % 10),
      Char.ofNat (48 + n / 10 / 10 / 10 % 10),
      Char.ofNat (48 + n / 10 / 10 % 10), Char.ofNat (48 + n / 10 % 10),
      Char.ofNat (48 + n % 10)] := rfl

/-- Reading back the two rendered digits of a value below one hundred gives
the value. -/
theorem twoDigitVal_pad (n : Nat) (hn : n < 100) :
    twoDigitVal (Char.ofNat (48 + n / 10 % 10)) (Char.ofNat (48 + n % 10)) = n := by
  unfold twoDigitVal
  rw [digitVal_ofNat_lt10 _ (Nat.mod_lt _ (by decide)),
    digitVal_ofNat_lt10 _ (Nat.mod_lt _ (by decide))]
  omega

/-- The tail built from in-range time components passes the tail validity
check. -/
theorem validISOTail_construct (m d hr mi se ms : Nat)
    (hm1 : 1 ≤ m) (hm2 : m ≤ 12) (hd1 : 1 ≤ d) (hd2 : d ≤ 31)
    (hh : hr ≤ 23) (hmi : mi ≤ 59) (hse : se ≤ 59) :
    validISOTail ('-' :: (padDigitsList 2 m ++ '-' :: (padDigitsList 2 d
      ++ 'T' :: (padDigitsList 2 hr ++ ':' :: (padDigitsList 2 mi
      ++ ':' :: (padDigitsList 2 se ++ '.' :: (padDigitsList 3 ms ++ ['Z']))))))) = true := by
  rw [padDigitsList_two_eq m, padDigitsList_two_eq d, padDigitsList_two_eq hr,
    padDigitsList_two_eq mi, padDigitsList_two_eq se, padDigitsList_three_eq ms]
  simp only [List.cons_append, List.nil_append]
  simp only [validISOTail]
  rw [twoDigitVal_pad m (by omega), twoDigitVal_pad d (by omega),
    twoDigitVal_pad hr (by omega), twoDigitVal_pad mi (by omega),
    twoDigitVal_pad se (by omega)]
  simp [isDigit_mod10, hm1, hm2, hd1, hd2, hh, hmi, hse]

/-- Unfolding of the validity check on a nonempty character list. -/
theorem isValidISO8601UTC_cons (c : Char) (cs : List Char) :
    isValidISO8601UTC (String.mk (c :: cs))
      = if c = '+' ∨ c = '-' then validDigitsThen 6 cs
        else validDigitsThen 4 (c :: cs) := rfl

/-- Unfolding of four digit steps of the digit-count check. -/
theorem validDigitsThen_four (c1 c2 c3 c4 : Char) (rest : List Char) :
    validDigitsThen 4 (c1 :: c2 :: c3 :: c4 :: rest)
      = (isDigit c1 && (isDigit c2 && (isDigit c3 && (isDigit c4
          && validISOTail rest)))) := rfl

/-- Unfolding of six digit steps of the digit-count check. -/
theorem validDigitsThen_six (c1 c2 c3 c4 c5 c6 : Char) (rest : List Char) :
    validDigitsThen 6 (c1 :: c2 :: c3 :: c4 :: c5 :: c6 :: rest)
      = (isDigit c1 && (isDigit c2 && (isDigit c3 && (isDigit c4
          && (isDigit c5 && (isDigit c6 && validISOTail rest)))))) := rfl

/-- Every rendered instant passes the ISO-8601 validity check. -/
theorem isValidISO8601UTC_isoChars (t : Int) :
    isValidISO8601UTC (String.mk (isoChars t)) = true := by
  obtain ⟨hm1, hm2, hd1, hd2⟩ := civilFromDays_month_day_bounds (t / 86400000)
  have htail : validISOTail ('-' :: (padDigitsList 2 (civilFromDays (t / 86400000)).2.1.toNat
      ++ '-' :: (padDigitsList 2 (civilFromDays (t / 86400000)).2.2.toNat
      ++ 'T' :: (padDigitsList 2 (t / 3600000 % 24).toNat
      ++ ':' :: (padDigitsList 2 (t / 60000 % 60).toNat
      ++ ':' :: (padDigitsList 2 (t / 1000 % 60).toNat
      ++ '.' :: (padDigitsList 3 (t % 1000).toNat ++ ['Z']))))))) = true := by
    apply validISOTail_construct <;> omega
  unfold isoChars
  dsimp only
  split
  · rw [padDigitsList_four_eq]
    simp only [List.cons_append, List.nil_append]
    rw [isValidISO8601UTC_cons, if_neg (sign_ne_digit _ (Nat.mod_lt _ (by decide))),
      validDigitsThen_four, htail]
    simp [isDigit_mod10]
  · split
    · simp only [List.cons_append]
      rw [isValidISO8601UTC_cons, if_pos (Or.inr rfl), padDigitsList_six_eq]
      simp only [List.cons_append, List.nil_append]
      rw [validDigitsThen_six, htail]
      simp [isDigit_mod10]
    · simp only [List.cons_append]
      rw [isValidISO8601UTC_cons, if_pos (Or.inl rfl), padDigitsList_six_eq]
      simp only [List.cons_append, List.nil_append]
      rw [validDigitsThen_six, htail]
      simp [isDigit_mod10]

/-- C5: with format iso, the rendered time string does not depend on the
supplied time zone (nor on the locale renderers), and for every instant a
valid Date can hold, the rendered string is a valid UTC-based ISO-8601
timestamp. -/
theorem get_time_iso_ignores_timeZone
    (fD fT fF gD gT gF : Option String → Int → String)
    (tz tz2 : Option String) (now : Int)
    (hnow : now.natAbs ≤ 8640000000000000) :
    get_time_timeString fD fT fF tz TimeFormat.iso now
      = get_time_timeString gD gT gF tz2 TimeFormat.iso now ∧
    ∃ s, get_time_timeString fD fT fF tz TimeFormat.iso now = Except.ok s ∧
      isValidISO8601UTC s = true := by
  refine ⟨rfl, ⟨String.mk (isoChars now), ?_, isValidISO8601UTC_isoChars now⟩⟩
  show toISOString now = Except.ok (String.mk (isoChars now))
  unfold toISOString
  rw [if_pos hnow]

/-- Witness for C5 at the instant 1700000000000 ms with and without an
explicit time zone. -/
theorem get_time_iso_ignores_timeZone_witness :
    get_time_timeString (fun _ _ => "d") (fun _ _ => "t") (fun _ _ => "f")
        (some "Asia/Seoul") TimeFormat.iso 1700000000000
      = get_time_timeString (fun _ _ => "x") (fun _ _ => "y") (fun _ _ => "z")
        none TimeFormat.iso 1700000000000 ∧
    ∃ s, get_time_timeString (fun _ _ => "d") (fun _ _ => "t") (fun _ _ => "f")
        (some "Asia/Seoul") TimeFormat.iso 1700000000000 = Except.ok s ∧
      isValidISO8601UTC s = true :=
  get_time_iso_ignores_timeZone (fun _ _ => "d") (fun _ _ => "t") (fun _ _ => "f")
    (fun _ _ => "x") (fun _ _ => "y") (fun _ _ => "z")
    (some "Asia/Seoul") none 1700000000000 (by decide)
